import Mathlib

/-!
# Verification of `tools/log_reconcile/query_orders.py`

A shallow embedding of the order-query tool. The script has two parts:

* `day_range_ms date_str tz_hours`: converts a `YYYY-MM-DD` date string and a
  fixed UTC offset (in hours) into an inclusive millisecond range
  `[start_ms, end_ms]` covering that local calendar day.  The Python source
  computes `int(datetime(y, m, d, ..., tzinfo=tz).timestamp() * 1000)`, which
  goes through IEEE-754 binary64 arithmetic; we model that rounding exactly
  (`flround`, `tsMs`) because it is observable in the results.
* `main argv db fmtTs`: argument handling, the SQL query
  (`WHERE trader_id=? AND symbol=? AND time BETWEEN ? AND ? ORDER BY time`)
  over an abstract row store, and the line formatting.

Modelling conventions:
* Python `int` is `ℤ`; machine floats are modelled by exact rounding of
  rationals represented as integer fractions (no overflow/subnormal handling,
  which is sound for the magnitudes a 4-digit year can produce).
* Python exceptions are an `Except PyErr` result; `PyErr` distinguishes the
  `ValueError` and `OverflowError` classes raised by `int()`, `datetime`,
  `timedelta` and `timezone`.
* The SQLite store is a list of rows; `BETWEEN` is inclusive on both ends and
  `ORDER BY time` is a sort that is non-decreasing in `time`.
* `time.strftime`/`time.localtime` depend on the machine-local timezone, so the
  per-row timestamp prefix is an explicit function parameter `fmtTs`.
* `int()` string parsing is modelled for ASCII inputs (whitespace trimming,
  one optional sign, decimal digits with single underscores between digits).
-/

/-- Errors raised by the Python runtime on the paths this tool exercises,
tagged with the exception class (`ValueError` vs `OverflowError`). -/
inductive PyErr where
  | valueError (msg : String)
  | overflowError (msg : String)
deriving DecidableEq, Repr

/-! ## IEEE-754 binary64 rounding, on exact integer fractions

`flround n d` returns `(m, e)` with `m * 2^e` the binary64 value nearest to
`n / d` (round to nearest, ties to even), for `n, d > 0`.  The significand `m`
satisfies `2^52 ≤ m ≤ 2^53`; exponent range limits (overflow to infinity,
subnormals) are not modelled, which is faithful for every magnitude reachable
from a year in `1..9999`. -/

/-- `ratioGe n d t` decides `n / d ≥ 2 ^ t` by exact integer comparison. -/
def ratioGe (n d : ℕ) (t : ℤ) : Bool :=
  if 0 ≤ t then d * 2 ^ t.toNat ≤ n else d ≤ n * 2 ^ (-t).toNat

/-- Fuel-driven binary logarithm (structural recursion, so it evaluates inside
the kernel; `fuel ≥ n` makes it total on the halving chain). -/
def log2go (fuel n : ℕ) : ℕ :=
  match fuel with
  | 0 => 0
  | f + 1 => if n < 2 then 0 else log2go f (n / 2) + 1

/-- `⌊log₂ n⌋` for `n ≥ 1` (and `0` at `0`), kernel-evaluable. -/
def nlog2 (n : ℕ) : ℕ := log2go n n

/-- Round `n / d` (for `n, d > 0`) to the nearest binary64 value, ties to
even, returned as a significand/exponent pair `(m, e)` meaning `m * 2^e`. -/
def flround (n d : ℕ) : ℕ × ℤ :=
  if n = 0 ∨ d = 0 then (0, 0) else
    -- n / d lies strictly between 2^(e0+51) and 2^(e0+53)
    let e0 : ℤ := (nlog2 n : ℤ) - (nlog2 d : ℤ) - 52
    let e : ℤ := if ratioGe n d (e0 + 52) then e0 else e0 - 1
    -- scale so that the target value is A / B with A / B ∈ [2^52, 2^53)
    let A := if 0 ≤ e then n else n * 2 ^ (-e).toNat
    let B := if 0 ≤ e then d * 2 ^ e.toNat else d
    let q := A / B
    let r := A % B
    let m := if 2 * r < B then q
             else if B < 2 * r then q + 1
             else if q % 2 = 0 then q else q + 1
    (m, e)

/-- Truncate `m * 2^e` toward zero to a natural number. -/
def truncPow2 (m : ℕ) (e : ℤ) : ℕ :=
  if 0 ≤ e then m * 2 ^ e.toNat else m / 2 ^ (-e).toNat

/-- The value of `int((us / 10**6) * 1000)` computed by CPython for a
nonnegative integer microsecond count `us`: divide by `10^6` (one correctly
rounded binary64 division of exact integers), multiply by `1000` (one binary64
multiplication), truncate toward zero. -/
def tsMsNat (us : ℕ) : ℕ :=
  if us = 0 then 0 else
    let s := flround us 1000000
    let p := if 0 ≤ s.2 then flround (s.1 * 1000 * 2 ^ s.2.toNat) 1
             else flround (s.1 * 1000) (2 ^ (-s.2).toNat)
    truncPow2 p.1 p.2

/-- `int(dt.datetime(...).timestamp() * 1000)` for an aware datetime whose
offset from the epoch is `us` microseconds (`us : ℤ`).  All three steps
(binary64 division, multiplication, truncation toward zero) are odd functions,
so the sign can be taken outside. -/
def tsMs (us : ℤ) : ℤ :=
  if 0 ≤ us then (tsMsNat us.natAbs : ℤ) else -(tsMsNat us.natAbs : ℤ)

/-! ## Proleptic Gregorian calendar (as used by `datetime.date`) -/

/-- Gregorian leap-year rule. -/
def isLeapYear (y : ℤ) : Bool :=
  (y % 4 == 0 && y % 100 != 0) || (y % 400 == 0)

/-- Number of days in month `m` of year `y` (for `1 ≤ m ≤ 12`). -/
def daysInMonth (y m : ℤ) : ℤ :=
  if m = 2 then (if isLeapYear y then 29 else 28)
  else if m = 4 ∨ m = 6 ∨ m = 9 ∨ m = 11 then 30
  else 31

/-- Days from 1970-01-01 to the Gregorian date `y-m-d` (valid for
`1 ≤ m ≤ 12`; agrees with `datetime.date(y,m,d).toordinal() - 719163`). -/
def daysFromCivil (y m d : ℤ) : ℤ :=
  let y' := if m ≤ 2 then y - 1 else y
  let era := (if 0 ≤ y' then y' else y' - 399) / 400
  let yoe := y' - era * 400
  let mp := (m + 9) % 12
  let doy := (153 * mp + 2) / 5 + d - 1
  let doe := yoe * 365 + yoe / 4 - yoe / 100 + doy
  era * 146097 + doe - 719468

/-- Decidable equality of `Except` results (not provided by core). -/
instance {ε α : Type _} [DecidableEq ε] [DecidableEq α] :
    DecidableEq (Except ε α) := fun a b =>
  match a, b with
  | .ok x, .ok y =>
    if h : x = y then .isTrue (by rw [h]) else .isFalse (fun hh => h (Except.ok.inj hh))
  | .error x, .error y =>
    if h : x = y then .isTrue (by rw [h]) else .isFalse (fun hh => h (Except.error.inj hh))
  | .ok _, .error _ => .isFalse (fun hh => Except.noConfusion hh)
  | .error _, .ok _ => .isFalse (fun hh => Except.noConfusion hh)

/-! ## Python `int()` string parsing (ASCII) -/

/-- Fuel-driven core of `digitsVal` (structural recursion on the fuel, so it
evaluates inside the kernel; each step consumes at least one character, so
`fuel ≥ l.length` never runs out). -/
def digitsGo (fuel : ℕ) (l : List Char) (acc : ℕ) : Option ℕ :=
  match fuel with
  | 0 => none
  | f + 1 =>
    match l with
    | [] => none
    | c :: rest =>
      if c.isDigit then
        let acc' := acc * 10 + (c.toNat - 48)
        match rest with
        | [] => some acc'
        | d :: rest' =>
          if d = '_' then digitsGo f rest' acc' else digitsGo f (d :: rest') acc'
      else none

/-- Value of a nonempty ASCII digit run that may contain single underscores
strictly between digits (the Python numeric-literal rule); `none` on any
violation.  The accumulator carries the value parsed so far. -/
def digitsVal (l : List Char) (acc : ℕ) : Option ℕ :=
  digitsGo l.length l acc

/-- Split an optional leading `+`/`-` sign off a character list. -/
def signSplit (l : List Char) : ℤ × List Char :=
  match l with
  | '+' :: r => (1, r)
  | '-' :: r => (-1, r)
  | r => (1, r)

/-- Strip whitespace from both ends (Python `str.strip()` on ASCII input). -/
def pyTrim (l : List Char) : List Char :=
  ((l.dropWhile Char.isWhitespace).reverse.dropWhile Char.isWhitespace).reverse

/-- `int(s)` on the characters of an ASCII string: strip surrounding
whitespace, accept one optional `+`/`-` sign, then decimal digits (with
underscores allowed between digits); anything else raises `ValueError`. -/
def pyIntChars (l : List Char) : Except PyErr ℤ :=
  match digitsVal (signSplit (pyTrim l)).2 0 with
  | some n => .ok ((signSplit (pyTrim l)).1 * n)
  | none => .error (.valueError "invalid literal for int() with base 10")

/-- Python `int(s)` for a string. -/
def pyInt (s : String) : Except PyErr ℤ := pyIntChars s.data

/-- Python `str.split(sep)` for a one-character separator, keeping empty
parts (structural, unlike `String.splitOn`, so it evaluates in the kernel). -/
def splitOnChar (sep : Char) (l : List Char) : List (List Char) :=
  match l with
  | [] => [[]]
  | c :: rest =>
    let r := splitOnChar sep rest
    if c = sep then [] :: r
    else
      match r with
      | [] => [[c]]
      | h :: t => (c :: h) :: t

/-- `y, m, d = map(int, date_str.split("-"))`: both a split that does not
produce exactly three parts (unpacking error) and a part that `int()` rejects
raise a `ValueError`. -/
def parseDate (s : String) : Except PyErr (ℤ × ℤ × ℤ) :=
  match splitOnChar '-' s.data with
  | [a, b, c] =>
    match pyIntChars a with
    | .error e => .error e
    | .ok y =>
      match pyIntChars b with
      | .error e => .error e
      | .ok m =>
        match pyIntChars c with
        | .error e => .error e
        | .ok d => .ok (y, m, d)
  | _ => .error (.valueError "cannot unpack into 3 values")

/-- `dt.timezone(dt.timedelta(hours=h))`: `timedelta` normalises to whole days
by floor division and raises `OverflowError` when the day count exceeds
±999999999; the `timezone` constructor then raises `ValueError` unless the
offset is strictly between -24 and +24 hours. -/
def pyTimezoneCheck (h : ℤ) : Except PyErr Unit :=
  if Int.fdiv h 24 < -999999999 ∨ 999999999 < Int.fdiv h 24 then
    .error (.overflowError "timedelta days out of range")
  else if h ≤ -24 ∨ 24 ≤ h then
    .error (.valueError "offset must be a timedelta strictly between -timedelta(hours=24) and timedelta(hours=24)")
  else .ok ()

/-- The range checks of `datetime.datetime(y, m, d, ...)`: year within
`MINYEAR..MAXYEAR`, month within `1..12`, day within the month. -/
def checkDate (y m d : ℤ) : Except PyErr Unit :=
  if y < 1 ∨ 9999 < y then .error (.valueError "year is out of range")
  else if m < 1 ∨ 12 < m then .error (.valueError "month must be in 1..12")
  else if d < 1 ∨ daysInMonth y m < d then
    .error (.valueError "day is out of range for month")
  else .ok ()

/-- `day_range_ms(date_str, tz_hours)` from the source: parse the date, build
the fixed-offset timezone, then take `int(datetime(y,m,d,0,0,0,tz).timestamp()
* 1000)` and `int(datetime(y,m,d,23,59,59,999000,tz).timestamp() * 1000)`. -/
def day_range_ms (dateStr : String) (tzHours : ℤ) : Except PyErr (ℤ × ℤ) :=
  match parseDate dateStr with
  | .error e => .error e
  | .ok (y, m, d) =>
    match pyTimezoneCheck tzHours with
    | .error e => .error e
    | .ok _ =>
      match checkDate y m d with
      | .error e => .error e
      | .ok _ =>
        let base := daysFromCivil y m d * 86400 - tzHours * 3600
        .ok (tsMs (base * 1000000), tsMs ((base + 86399) * 1000000 + 999000))

/-! ## The order store, the query and the formatter -/

/-- One row of the external `orders` table.  The numeric display fields
(`avg_price`/`executed_qty` rendered with `:.6g`, the `reduce_only` /
`close_position` flags and `order_id` rendered with `str`) are carried as the
strings they render to, since no claim depends on float formatting; `time` is
the integer millisecond timestamp the query filters and sorts on. -/
structure OrderRow where
  orderId : String
  side : String
  positionSide : String
  status : String
  avgPriceG6 : String
  executedQtyG6 : String
  reduceOnly : String
  closePosition : String
  otype : String
  time : ℤ
  traderId : String
  symbol : String
deriving DecidableEq, Repr

/-- The `WHERE` clause: `trader_id=? AND symbol=? AND time BETWEEN ? AND ?`
(SQL `BETWEEN` is inclusive on both ends). -/
def rowMatches (trader symbol : String) (a b : ℤ) (r : OrderRow) : Bool :=
  r.traderId == trader && r.symbol == symbol &&
    decide (a ≤ r.time) && decide (r.time ≤ b)

/-- The comparison realising `ORDER BY time`: non-decreasing `time`. -/
def timeLE (r s : OrderRow) : Prop := r.time ≤ s.time

instance : DecidableRel timeLE := fun r s => Int.decLe r.time s.time

instance : IsTotal OrderRow timeLE := ⟨fun r s => Int.le_total r.time s.time⟩

instance : IsTrans OrderRow timeLE := ⟨fun _ _ _ h h' => Int.le_trans h h'⟩

/-- The `SELECT ... ORDER BY time` result: the matching rows of the store,
sorted non-decreasing by `time` (SQLite guarantees the ordering, not the
placement of ties; a stable insertion sort realises one admissible order). -/
def queryOrders (db : List OrderRow) (trader symbol : String) (a b : ℤ) :
    List OrderRow :=
  List.insertionSort timeLE (db.filter (rowMatches trader symbol a b))

/-- The date string would survive both `map(int, ...split("-"))` and the
`datetime` constructor; `false` means the tool's `day_range_ms` raises. -/
def dateValid (s : String) : Bool :=
  match parseDate s with
  | .error _ => false
  | .ok (y, m, d) =>
    match checkDate y m d with
    | .error _ => false
    | .ok _ => true

/-- `n` spaces. -/
def spaces (n : ℕ) : String := String.mk (List.replicate n ' ')

/-- Python format alignment: `<` pads on the right (left-align), `>` pads on
the left (right-align). -/
inductive PyAlign where
  | left
  | right
deriving DecidableEq

/-- Python `format(s, '<w')` / `format(s, '>w')`: pad `s` with spaces to
width `w`, on the right for `<` and on the left for `>`. -/
def pyAlignPad (al : PyAlign) (w : ℕ) (s : String) : String :=
  match al with
  | .left => s ++ spaces (w - s.length)
  | .right => spaces (w - s.length) ++ s

/-- Python `f"{n:+d}"`: decimal with a mandatory sign. -/
def pyPlusD (n : ℤ) : String :=
  if 0 ≤ n then "+" ++ toString n else toString n

/-- The per-row f-string
`f"{ts_str} | id={order_id} | {side:<4} {pos_side:<5} {status:<7} | px={avg_price:.6g} qty={executed_qty:.6g} | RO={reduce_only} CP={close_position} | {otype}"`,
with `ts_str` supplied by `fmtTs` (it is `time.strftime` over
`time.localtime(ts / 1000)`, which depends on the machine-local timezone). -/
def formatRow (fmtTs : ℤ → String) (r : OrderRow) : String :=
  fmtTs r.time ++ " | id=" ++ r.orderId ++ " | " ++
    pyAlignPad .left 4 r.side ++ " " ++
    pyAlignPad .left 5 r.positionSide ++ " " ++
    pyAlignPad .left 7 r.status ++ " | px=" ++
    r.avgPriceG6 ++ " qty=" ++ r.executedQtyG6 ++ " | RO=" ++
    r.reduceOnly ++ " CP=" ++ r.closePosition ++ " | " ++ r.otype

/-- The summary line
`f"found {len(rows)} orders for {symbol} on {date_str} (tz=UTC{tz_hours:+d})"`. -/
def summaryLine (count : ℕ) (symbol dateStr : String) (tzHours : ℤ) : String :=
  "found " ++ toString count ++ " orders for " ++ symbol ++ " on " ++
    dateStr ++ " (tz=UTC" ++ pyPlusD tzHours ++ ")"

/-- Observable outcome of one invocation: `usage` prints the usage text and
exits with status 1; `error e` is an uncaught exception (non-zero exit, stack
trace); `ok lines` prints `lines` in order and exits with status 0. -/
inductive MainResult where
  | usage
  | error (e : PyErr)
  | ok (lines : List String)
deriving DecidableEq, Repr

namespace QueryOrders

/-- `main()` from the source.  `argv` includes the program name at index 0 (so
`len(sys.argv) < 4` is "fewer than 3 positional arguments"); `db` is the
content of the external `orders` store, touched only after argument parsing
and `day_range_ms` succeed; `fmtTs` renders the machine-local wall-clock
prefix of each row line.  (Namespaced because a bare `main` is reserved by
Lean for the `IO` entry point.) -/
def main (argv : List String) (db : List OrderRow) (fmtTs : ℤ → String) :
    MainResult :=
  if argv.length < 4 then .usage
  else
    let traderId := argv.getD 1 ""
    let symbol := argv.getD 2 ""
    let dateStr := argv.getD 3 ""
    match (if 4 < argv.length then pyInt (argv.getD 4 "") else .ok 8) with
    | .error e => .error e
    | .ok tzHours =>
      match day_range_ms dateStr tzHours with
      | .error e => .error e
      | .ok (start, stop) =>
        let rows := queryOrders db traderId symbol start stop
        .ok (summaryLine rows.length symbol dateStr tzHours ::
          rows.map (formatRow fmtTs))

end QueryOrders

/-! ## Sample data shared by the concrete witnesses -/

/-- A sample stored order used by several witnesses. -/
def sampleRow : OrderRow :=
  { orderId := "1", side := "BUY", positionSide := "LONG", status := "NEW",
    avgPriceG6 := "101.5", executedQtyG6 := "2", reduceOnly := "0",
    closePosition := "0", otype := "LIMIT", time := 100,
    traderId := "trader1", symbol := "BTCUSDT" }

/-- A second sample order, later in time. -/
def sampleRow2 : OrderRow :=
  { orderId := "2", side := "SELL", positionSide := "SHORT", status := "FILLED",
    avgPriceG6 := "99.1", executedQtyG6 := "3", reduceOnly := "1",
    closePosition := "0", otype := "MARKET", time := 1762617600500,
    traderId := "trader1", symbol := "BTCUSDT" }

/-- A third sample order, earlier in time than `sampleRow2`. -/
def sampleRow3 : OrderRow :=
  { orderId := "3", side := "BUY", positionSide := "LONG", status := "NEW",
    avgPriceG6 := "99.8", executedQtyG6 := "1", reduceOnly := "0",
    closePosition := "1", otype := "LIMIT", time := 1762617600100,
    traderId := "trader1", symbol := "BTCUSDT" }

/-! ## Helper lemmas about the embedded functions -/

theorem day_range_ms_parse_err {d : String} {tz : ℤ} {e : PyErr}
    (hp : parseDate d = .error e) : day_range_ms d tz = .error e := by
  simp [day_range_ms, hp]

theorem day_range_ms_tz_err {d : String} {y m dd tz : ℤ} {e : PyErr}
    (hp : parseDate d = .ok (y, m, dd)) (htz : pyTimezoneCheck tz = .error e) :
    day_range_ms d tz = .error e := by
  simp [day_range_ms, hp, htz]

theorem day_range_ms_date_err {d : String} {y m dd tz : ℤ} {e : PyErr}
    (hp : parseDate d = .ok (y, m, dd)) (htz : pyTimezoneCheck tz = .ok ())
    (hcd : checkDate y m dd = .error e) : day_range_ms d tz = .error e := by
  simp [day_range_ms, hp, htz, hcd]

theorem day_range_ms_ok {d : String} {y m dd tz : ℤ}
    (hp : parseDate d = .ok (y, m, dd)) (htz : pyTimezoneCheck tz = .ok ())
    (hcd : checkDate y m dd = .ok ()) :
    day_range_ms d tz = .ok
      (tsMs ((daysFromCivil y m dd * 86400 - tz * 3600) * 1000000),
       tsMs ((daysFromCivil y m dd * 86400 - tz * 3600 + 86399) * 1000000 + 999000)) := by
  simp [day_range_ms, hp, htz, hcd]

theorem pyTimezoneCheck_overflow {h : ℤ}
    (hov : Int.fdiv h 24 < -999999999 ∨ 999999999 < Int.fdiv h 24) :
    pyTimezoneCheck h = .error (.overflowError "timedelta days out of range") := by
  unfold pyTimezoneCheck
  rw [if_pos hov]

theorem pyTimezoneCheck_value {h : ℤ}
    (hov : ¬(Int.fdiv h 24 < -999999999 ∨ 999999999 < Int.fdiv h 24))
    (hbig : h ≤ -24 ∨ 24 ≤ h) :
    pyTimezoneCheck h = .error (.valueError
      "offset must be a timedelta strictly between -timedelta(hours=24) and timedelta(hours=24)") := by
  unfold pyTimezoneCheck
  rw [if_neg hov, if_pos hbig]

theorem fdiv24_small {h : ℤ} (h1 : -24 < h) (h2 : h < 24) :
    Int.fdiv h 24 = 0 ∨ Int.fdiv h 24 = -1 := by
  interval_cases h <;> decide

theorem pyTimezoneCheck_ok {h : ℤ} (h1 : -24 < h) (h2 : h < 24) :
    pyTimezoneCheck h = .ok () := by
  have hd := fdiv24_small h1 h2
  unfold pyTimezoneCheck
  rw [if_neg (by rcases hd with h' | h' <;> rw [h'] <;> decide), if_neg (by omega)]

theorem pyIntChars_error_class {l : List Char} {e : PyErr}
    (h : pyIntChars l = .error e) : ∃ msg, e = .valueError msg := by
  unfold pyIntChars at h
  split at h
  · exact absurd h (by simp)
  · exact ⟨_, (Except.error.inj h).symm⟩

theorem pyInt_error_class {s : String} {e : PyErr} (h : pyInt s = .error e) :
    ∃ msg, e = .valueError msg := by
  unfold pyInt at h
  exact pyIntChars_error_class h

theorem parseDate_error_class {s : String} {e : PyErr}
    (h : parseDate s = .error e) : ∃ msg, e = .valueError msg := by
  unfold parseDate at h
  split at h
  · split at h
    · rename_i he
      exact (Except.error.inj h) ▸ pyIntChars_error_class he
    · split at h
      · rename_i he
        exact (Except.error.inj h) ▸ pyIntChars_error_class he
      · split at h
        · rename_i he
          exact (Except.error.inj h) ▸ pyIntChars_error_class he
        · exact absurd h (by simp)
  · exact ⟨_, (Except.error.inj h).symm⟩

theorem checkDate_error_class {y m d : ℤ} {e : PyErr}
    (h : checkDate y m d = .error e) : ∃ msg, e = .valueError msg := by
  unfold checkDate at h
  split_ifs at h
  all_goals exact ⟨_, (Except.error.inj h).symm⟩

theorem main_unfold {argv : List String} {db : List OrderRow}
    {fmtTs : ℤ → String} (hlen : ¬ argv.length < 4) :
    QueryOrders.main argv db fmtTs =
      match (if 4 < argv.length then pyInt (argv.getD 4 "") else .ok 8) with
      | .error e => .error e
      | .ok tzHours =>
        match day_range_ms (argv.getD 3 "") tzHours with
        | .error e => .error e
        | .ok (start, stop) =>
          .ok (summaryLine
                (queryOrders db (argv.getD 1 "") (argv.getD 2 "") start stop).length
                (argv.getD 2 "") (argv.getD 3 "") tzHours ::
              (queryOrders db (argv.getD 1 "") (argv.getD 2 "") start stop).map
                (formatRow fmtTs)) := by
  unfold QueryOrders.main
  rw [if_neg hlen]

theorem main_tz_err {argv : List String} {db : List OrderRow}
    {fmtTs : ℤ → String} {e : PyErr} (hlen : ¬ argv.length < 4)
    (htz : (if 4 < argv.length then pyInt (argv.getD 4 "") else .ok 8) = .error e) :
    QueryOrders.main argv db fmtTs = .error e := by
  rw [main_unfold hlen, htz]

theorem main_dr_err {argv : List String} {db : List OrderRow}
    {fmtTs : ℤ → String} {tz : ℤ} {e : PyErr} (hlen : ¬ argv.length < 4)
    (htz : (if 4 < argv.length then pyInt (argv.getD 4 "") else .ok 8) = .ok tz)
    (hdr : day_range_ms (argv.getD 3 "") tz = .error e) :
    QueryOrders.main argv db fmtTs = .error e := by
  rw [main_unfold hlen, htz]
  dsimp only
  rw [hdr]

theorem main_ok_form {argv : List String} {db : List OrderRow}
    {fmtTs : ℤ → String} {tz a b : ℤ} (hlen : ¬ argv.length < 4)
    (htz : (if 4 < argv.length then pyInt (argv.getD 4 "") else .ok 8) = .ok tz)
    (hdr : day_range_ms (argv.getD 3 "") tz = .ok (a, b)) :
    QueryOrders.main argv db fmtTs =
      .ok (summaryLine
            (queryOrders db (argv.getD 1 "") (argv.getD 2 "") a b).length
            (argv.getD 2 "") (argv.getD 3 "") tz ::
          (queryOrders db (argv.getD 1 "") (argv.getD 2 "") a b).map
            (formatRow fmtTs)) := by
  rw [main_unfold hlen, htz]
  dsimp only
  rw [hdr]

/-! ## The claims -/

/-- C1 (status: code_bug).  The claim — for every accepted date and offset,
`end_ms - start_ms = 86399999` with `start_ms` exact local midnight — holds
for the spec's own example `2025-11-09` offset `0` (first conjunct), but the
source computes the timestamps through `float`, and on the valid input
`1970-01-07` with offset `22` the rounding of
`int(datetime(1970,1,7,23,59,59,999000,tz).timestamp()*1000)` loses one
millisecond: the code returns `end_ms = 525599998` where exact arithmetic
gives `525599999`, so the span is `86399998`, not `86399999`. -/
theorem c1_day_range_span : day_range_ms "2025-11-09" 0 = .ok (1762646400000, 1762732799999) ∧
    day_range_ms "1970-01-07" 22 = .ok (439200000, 525599998) ∧
    (525599998 : ℤ) - 439200000 ≠ 86399999 := by
  refine ⟨by decide, by decide, by decide⟩

/-- C4 (status: code_bug).  The claim — moving the offset from `o` to `o+1`
shifts both endpoints by exactly `-3,600,000` ms — fails on the code: for
`1970-01-07`, offsets `22 → 23`, the start shifts by `-3600000` but the end
shifts by `-3599999`, because the float path drops one millisecond at offset
`22` (end `525599998` instead of the exact `525599999`) and not at `23`. -/
theorem c4_offset_shift : day_range_ms "1970-01-07" 22 = .ok (439200000, 525599998) ∧
    day_range_ms "1970-01-07" 23 = .ok (435600000, 521999999) ∧
    (435600000 : ℤ) - 439200000 = -3600000 ∧
    (521999999 : ℤ) - 525599998 ≠ -3600000 := by
  refine ⟨by decide, by decide, by decide, by decide⟩

/-- C6 (status: confirmed).  With fewer than 3 positional arguments
(`len(sys.argv) < 4` including the program name), the tool prints the usage
text and exits with status 1 (the `usage` outcome), and the result does not
depend on the order store or on the timestamp renderer — no store access. -/
theorem c6_usage_on_few_args (argv : List String) (db db' : List OrderRow)
    (fmtTs fmtTs' : ℤ → String) (h : argv.length < 4) :
    QueryOrders.main argv db fmtTs = .usage ∧
    QueryOrders.main argv db fmtTs = QueryOrders.main argv db' fmtTs' := by
  constructor <;> simp [QueryOrders.main, h]

/-- Witness for `c6_usage_on_few_args` at a 2-argument command line. -/
theorem c6_usage_on_few_args_witness :
    QueryOrders.main ["query_orders.py", "trader1", "BTCUSDT"] [] (fun _ => "") = .usage ∧
    QueryOrders.main ["query_orders.py", "trader1", "BTCUSDT"] [] (fun _ => "") =
      QueryOrders.main ["query_orders.py", "trader1", "BTCUSDT"] [sampleRow] (fun t => toString t) :=
  c6_usage_on_few_args _ _ _ _ _ (by decide)

/-- C3 (status: corrected), counterexample.  The claim says side /
position-side / status are LEFT-padded (spaces before the field, i.e.
right-aligned).  The source formats them with `:<4`, `:<5`, `:<7`, which is
left-ALIGNMENT: padding spaces go after the field.  At a concrete row the
emitted line (first conjunct) differs from the left-padded rendering the
claim describes (second conjunct). -/
theorem c3_padding_direction_counterexample :
    formatRow (fun _ => "TS") sampleRow =
      "TS | id=1 | BUY  LONG  NEW     | px=101.5 qty=2 | RO=0 CP=0 | LIMIT" ∧
    formatRow (fun _ => "TS") sampleRow ≠
      "TS | id=1 | " ++ pyAlignPad .right 4 "BUY" ++ " " ++
        pyAlignPad .right 5 "LONG" ++ " " ++ pyAlignPad .right 7 "NEW" ++
        " | px=101.5 qty=2 | RO=0 CP=0 | LIMIT" := by
  refine ⟨by decide, by decide⟩

/-- The width of `spaces n`. -/
theorem spaces_length (n : ℕ) : (spaces n).length = n := by
  simp [spaces]

/-- C3 (status: corrected), amended claim: in every emitted row line the side
field is left-ALIGNED (padded on the right with spaces) to 4 characters, the
position-side field to 5, and the status field to 7; each padded field
occupies `max w field.length` characters. -/
theorem c3_fields_left_aligned (fmtTs : ℤ → String) (r : OrderRow) :
    formatRow fmtTs r =
      fmtTs r.time ++ " | id=" ++ r.orderId ++ " | " ++
        (r.side ++ spaces (4 - r.side.length)) ++ " " ++
        (r.positionSide ++ spaces (5 - r.positionSide.length)) ++ " " ++
        (r.status ++ spaces (7 - r.status.length)) ++ " | px=" ++
        r.avgPriceG6 ++ " qty=" ++ r.executedQtyG6 ++ " | RO=" ++
        r.reduceOnly ++ " CP=" ++ r.closePosition ++ " | " ++ r.otype ∧
    (pyAlignPad .left 4 r.side).length = max 4 r.side.length ∧
    (pyAlignPad .left 5 r.positionSide).length = max 5 r.positionSide.length ∧
    (pyAlignPad .left 7 r.status).length = max 7 r.status.length := by
  refine ⟨rfl, ?_, ?_, ?_⟩ <;>
    simp [pyAlignPad, String.length_append, spaces_length] <;> omega

/-- Witness for `c3_fields_left_aligned` at a concrete row. -/
theorem c3_fields_left_aligned_witness :
    formatRow (fun _ => "TS") sampleRow =
      (fun _ : ℤ => "TS") sampleRow.time ++ " | id=" ++ sampleRow.orderId ++ " | " ++
        (sampleRow.side ++ spaces (4 - sampleRow.side.length)) ++ " " ++
        (sampleRow.positionSide ++ spaces (5 - sampleRow.positionSide.length)) ++ " " ++
        (sampleRow.status ++ spaces (7 - sampleRow.status.length)) ++ " | px=" ++
        sampleRow.avgPriceG6 ++ " qty=" ++ sampleRow.executedQtyG6 ++ " | RO=" ++
        sampleRow.reduceOnly ++ " CP=" ++ sampleRow.closePosition ++ " | " ++ sampleRow.otype :=
  (c3_fields_left_aligned (fun _ => "TS") sampleRow).1

/-- C10 (status: corrected), counterexample.  The claim says every offset of
magnitude ≥ 24 raises a `ValueError`; but `timedelta(hours=24000000000)`
overflows its day range first, raising `OverflowError` — a different
exception class (it derives from `ArithmeticError`, not `ValueError`). -/
theorem c10_huge_offset_overflow_counterexample :
    day_range_ms "2025-11-09" 24000000000 =
      .error (.overflowError "timedelta days out of range") ∧
    ∀ msg, day_range_ms "2025-11-09" 24000000000 ≠ .error (.valueError msg) := by
  have h0 : day_range_ms "2025-11-09" 24000000000 =
      .error (.overflowError "timedelta days out of range") := by decide
  refine ⟨h0, ?_⟩
  intro msg h
  rw [h0] at h
  exact PyErr.noConfusion (Except.error.inj h)

/-- C10 (status: corrected), amended claim.  For every offset with
`24 ≤ |tz|`, `day_range_ms` raises: with a `ValueError` from the `timezone`
constructor whenever `timedelta(hours=tz)` is representable
(`|⌊tz/24⌋| ≤ 999999999`), and with an `OverflowError` from `timedelta`
beyond that; for `|tz| < 24` it succeeds.  So `day_range_ms` is defined
exactly for offsets strictly between -24 and 24. -/
theorem c10_offset_bounds (tz : ℤ) :
    (24 ≤ |tz| → ∃ e, day_range_ms "2025-11-09" tz = .error e) ∧
    (24 ≤ |tz| ∧ -999999999 ≤ Int.fdiv tz 24 ∧ Int.fdiv tz 24 ≤ 999999999 →
      ∃ msg, day_range_ms "2025-11-09" tz = .error (.valueError msg)) ∧
    ((Int.fdiv tz 24 < -999999999 ∨ 999999999 < Int.fdiv tz 24) →
      ∃ msg, day_range_ms "2025-11-09" tz = .error (.overflowError msg)) ∧
    (|tz| < 24 → ∃ p, day_range_ms "2025-11-09" tz = .ok p) := by
  have hp : parseDate "2025-11-09" = .ok (2025, 11, 9) := by decide
  have hcd : checkDate 2025 11 9 = .ok () := by decide
  refine ⟨?_, ?_, ?_, ?_⟩
  · intro habs
    by_cases hov : Int.fdiv tz 24 < -999999999 ∨ 999999999 < Int.fdiv tz 24
    · exact ⟨_, day_range_ms_tz_err hp (pyTimezoneCheck_overflow hov)⟩
    · have hbig : tz ≤ -24 ∨ 24 ≤ tz := by
        rcases le_abs.mp habs with h | h
        · exact Or.inr h
        · exact Or.inl (by omega)
      exact ⟨_, day_range_ms_tz_err hp (pyTimezoneCheck_value hov hbig)⟩
  · rintro ⟨habs, hlo, hhi⟩
    have hov : ¬(Int.fdiv tz 24 < -999999999 ∨ 999999999 < Int.fdiv tz 24) := by
      omega
    have hbig : tz ≤ -24 ∨ 24 ≤ tz := by
      rcases le_abs.mp habs with h | h
      · exact Or.inr h
      · exact Or.inl (by omega)
    exact ⟨_, day_range_ms_tz_err hp (pyTimezoneCheck_value hov hbig)⟩
  · intro hov
    exact ⟨_, day_range_ms_tz_err hp (pyTimezoneCheck_overflow hov)⟩
  · intro habs
    have h12 := abs_lt.mp habs
    exact ⟨_, day_range_ms_ok hp (pyTimezoneCheck_ok (by omega) h12.2) hcd⟩

/-- Witness for `c10_offset_bounds` at offset 24 (smallest rejected). -/
theorem c10_offset_bounds_witness :
    ∃ msg, day_range_ms "2025-11-09" 24 = .error (.valueError msg) :=
  (c10_offset_bounds 24).2.1 ⟨by decide, by decide, by decide⟩

/-- C9 (status: confirmed).  `day_range_ms` does not enforce the strict
`YYYY-MM-DD` layout: unpadded parts (`2025-1-9`), surrounding whitespace and
a leading `+` in a part all parse, yielding the same range as the zero-padded
date, which itself succeeds; and any string that does not split on `-` into
exactly three parts fails with a `ValueError`-class error (the unpacking
error), not a distinct failure kind. -/
theorem c9_lenient_date_parsing :
    day_range_ms "2025-1-9" 0 = day_range_ms "2025-01-09" 0 ∧
    day_range_ms " 2025-+1- 9 " 5 = day_range_ms "2025-01-09" 5 ∧
    (∃ p, day_range_ms "2025-01-09" 0 = .ok p) ∧
    ∀ (s : String) (tz : ℤ), (splitOnChar '-' s.data).length ≠ 3 →
      ∃ msg, day_range_ms s tz = .error (.valueError msg) := by
  refine ⟨by decide, by decide, ⟨(1736380800000, 1736467199999), by decide⟩, ?_⟩
  intro s tz hlen
  have hp : parseDate s = .error (.valueError "cannot unpack into 3 values") := by
    unfold parseDate
    rcases hsp : splitOnChar '-' s.data with _ | ⟨a, _ | ⟨b, _ | ⟨c, _ | ⟨d4, t⟩⟩⟩⟩
    · rfl
    · rfl
    · rfl
    · rw [hsp] at hlen
      simp at hlen
    · rfl
  exact ⟨_, day_range_ms_parse_err hp⟩

/-- Witness for the universal part of `c9_lenient_date_parsing` at the
one-part string `2025`. -/
theorem c9_lenient_date_parsing_witness :
    ∃ msg, day_range_ms "2025" 0 = .error (.valueError msg) :=
  c9_lenient_date_parsing.2.2.2 "2025" 0 (by decide)

/-- C2 (status: confirmed).  For a stored row whose `trader_id` and `symbol`
equal the queried values, the `BETWEEN` filter is inclusive on both ends: a
row with `time = start_ms` or `time = end_ms` is in the result, and a row
with `time = start_ms - 1` or `time = end_ms + 1` is not. -/
theorem c2_between_inclusive (db : List OrderRow) (trader symbol : String)
    (a b : ℤ) (r : OrderRow) (hr : r ∈ db) (ht : r.traderId = trader)
    (hs : r.symbol = symbol) (hab : a ≤ b) :
    ((r.time = a ∨ r.time = b) → r ∈ queryOrders db trader symbol a b) ∧
    (r.time = a - 1 → r ∉ queryOrders db trader symbol a b) ∧
    (r.time = b + 1 → r ∉ queryOrders db trader symbol a b) := by
  have hmem : ∀ x : OrderRow, x ∈ queryOrders db trader symbol a b ↔
      x ∈ db ∧ rowMatches trader symbol a b x = true := by
    intro x
    rw [queryOrders, List.mem_insertionSort, List.mem_filter]
  refine ⟨?_, ?_, ?_⟩
  · intro htime
    rw [hmem]
    refine ⟨hr, ?_⟩
    rcases htime with h | h <;> simp [rowMatches, ht, hs, h, hab]
  · intro h hin
    rw [hmem] at hin
    have hm := hin.2
    simp only [rowMatches, h, Bool.and_eq_true, decide_eq_true_eq, beq_iff_eq] at hm
    omega
  · intro h hin
    rw [hmem] at hin
    have hm := hin.2
    simp only [rowMatches, h, Bool.and_eq_true, decide_eq_true_eq, beq_iff_eq] at hm
    omega

/-- Witness for `c2_between_inclusive` on a one-row store with range
`[100, 200]` and a row at time 100. -/
theorem c2_between_inclusive_witness :
    ((sampleRow.time = 100 ∨ sampleRow.time = 200) →
      sampleRow ∈ queryOrders [sampleRow] "trader1" "BTCUSDT" 100 200) ∧
    (sampleRow.time = 100 - 1 →
      sampleRow ∉ queryOrders [sampleRow] "trader1" "BTCUSDT" 100 200) ∧
    (sampleRow.time = 200 + 1 →
      sampleRow ∉ queryOrders [sampleRow] "trader1" "BTCUSDT" 100 200) :=
  c2_between_inclusive [sampleRow] "trader1" "BTCUSDT" 100 200 sampleRow
    (by decide) (by decide) (by decide) (by decide)

/-- C7 (status: confirmed).  When the query matches zero rows the tool prints
exactly one line — the summary with count 0, the symbol, the date and the
signed UTC offset — no row lines, and exits with status 0 (the `ok`
outcome). -/
theorem c7_zero_rows_summary_only (argv : List String) (db : List OrderRow)
    (fmtTs : ℤ → String) (tz a b : ℤ) (hlen : ¬ argv.length < 4)
    (htz : (if 4 < argv.length then pyInt (argv.getD 4 "") else .ok 8) = .ok tz)
    (hdr : day_range_ms (argv.getD 3 "") tz = .ok (a, b))
    (hempty : db.filter (rowMatches (argv.getD 1 "") (argv.getD 2 "") a b) = []) :
    QueryOrders.main argv db fmtTs =
      .ok [summaryLine 0 (argv.getD 2 "") (argv.getD 3 "") tz] := by
  rw [main_ok_form hlen htz hdr, queryOrders, hempty]
  rfl

/-- Witness for `c7_zero_rows_summary_only` on an empty store. -/
theorem c7_zero_rows_summary_only_witness :
    QueryOrders.main ["query_orders.py", "trader1", "BTCUSDT", "2025-11-09"]
        [] (fun _ => "") =
      .ok [summaryLine 0 "BTCUSDT" "2025-11-09" 8] :=
  c7_zero_rows_summary_only ["query_orders.py", "trader1", "BTCUSDT", "2025-11-09"]
    [] (fun _ => "") 8 1762617600000 1762703999999
    (by decide) (by decide) (by decide) rfl

/-- C8 (status: confirmed).  The fetched result list is sorted non-decreasing
by `time` (`ORDER BY time`), and the formatter emits exactly those rows, in
exactly that order, after the summary line — it never reorders them. -/
theorem c8_rows_sorted_in_order (argv : List String) (db : List OrderRow)
    (fmtTs : ℤ → String) (tz a b : ℤ) (hlen : ¬ argv.length < 4)
    (htz : (if 4 < argv.length then pyInt (argv.getD 4 "") else .ok 8) = .ok tz)
    (hdr : day_range_ms (argv.getD 3 "") tz = .ok (a, b)) :
    List.Sorted timeLE (queryOrders db (argv.getD 1 "") (argv.getD 2 "") a b) ∧
    QueryOrders.main argv db fmtTs =
      .ok (summaryLine
            (queryOrders db (argv.getD 1 "") (argv.getD 2 "") a b).length
            (argv.getD 2 "") (argv.getD 3 "") tz ::
          (queryOrders db (argv.getD 1 "") (argv.getD 2 "") a b).map
            (formatRow fmtTs)) := by
  refine ⟨?_, main_ok_form hlen htz hdr⟩
  rw [queryOrders]
  exact List.sorted_insertionSort timeLE _

/-- Witness for `c8_rows_sorted_in_order` on a two-row store given in
reverse time order. -/
theorem c8_rows_sorted_in_order_witness :
    List.Sorted timeLE (queryOrders [sampleRow2, sampleRow3] "trader1" "BTCUSDT"
      1762617600000 1762703999999) ∧
    QueryOrders.main ["query_orders.py", "trader1", "BTCUSDT", "2025-11-09"]
        [sampleRow2, sampleRow3] (fun _ => "TS") =
      .ok (summaryLine
            (queryOrders [sampleRow2, sampleRow3] "trader1" "BTCUSDT"
              1762617600000 1762703999999).length
            "BTCUSDT" "2025-11-09" 8 ::
          (queryOrders [sampleRow2, sampleRow3] "trader1" "BTCUSDT"
            1762617600000 1762703999999).map (formatRow (fun _ => "TS"))) :=
  c8_rows_sorted_in_order ["query_orders.py", "trader1", "BTCUSDT", "2025-11-09"]
    [sampleRow2, sampleRow3] (fun _ => "TS") 8 1762617600000 1762703999999
    (by decide) (by decide) (by decide)

/-- C5 (status: corrected), counterexample.  The claim says every malformed
date makes the tool die with a `ValueError`-class error.  With the malformed
calendar date `2025-13-01` and the tz argument `24000000000`, the
`timezone(timedelta(hours=...))` construction runs before the `datetime`
validation and overflows `timedelta`, so the uncaught error is an
`OverflowError`, not a `ValueError` (the process still exits non-zero before
any store access). -/
theorem c5_overflow_corner_counterexample :
    QueryOrders.main
        ["query_orders.py", "trader1", "BTCUSDT", "2025-13-01", "24000000000"]
        [] (fun _ => "") =
      .error (.overflowError "timedelta days out of range") ∧
    ∀ msg, QueryOrders.main
        ["query_orders.py", "trader1", "BTCUSDT", "2025-13-01", "24000000000"]
        [] (fun _ => "") ≠ .error (.valueError msg) := by
  have h0 : QueryOrders.main
      ["query_orders.py", "trader1", "BTCUSDT", "2025-13-01", "24000000000"]
      [] (fun _ => "") =
      .error (.overflowError "timedelta days out of range") := by decide
  refine ⟨h0, ?_⟩
  intro msg h
  rw [h0] at h
  exact PyErr.noConfusion (MainResult.error.inj h)

/-- C5 (status: corrected), amended claim.  For every malformed date (one
that fails integer conversion, fails to unpack into three parts, or is not a
valid calendar date), the tool terminates with an uncaught error — non-zero
exit — without touching the order store (the result is independent of the
store content and of the renderer).  The error is of `ValueError` class in
every case except one corner: the `ValueError` conclusion only needs the tz
offset to be `timedelta`-representable (`|⌊tz/24⌋| ≤ 999999999`, which
includes the no-argument default 8) when the date's parts do parse as
integers — a date failing at the integer-parse level raises `ValueError`
before the timezone is built, whatever the offset.  Only valid integer parts
forming an invalid calendar date combined with an overflowing offset give an
`OverflowError` instead. -/
theorem c5_malformed_date_uncaught (p t s d : String) (rest : List String)
    (db db' : List OrderRow) (fmtTs fmtTs' : ℤ → String)
    (hmal : dateValid d = false) :
    (∃ e, QueryOrders.main (p :: t :: s :: d :: rest) db fmtTs = .error e) ∧
    QueryOrders.main (p :: t :: s :: d :: rest) db fmtTs =
      QueryOrders.main (p :: t :: s :: d :: rest) db' fmtTs' ∧
    ((∀ y m dd : ℤ, parseDate d = .ok (y, m, dd) →
        ∀ tzv : ℤ,
          (if 4 < (p :: t :: s :: d :: rest).length
           then pyInt ((p :: t :: s :: d :: rest).getD 4 "")
           else .ok 8) = .ok tzv →
          -999999999 ≤ Int.fdiv tzv 24 ∧ Int.fdiv tzv 24 ≤ 999999999) →
      ∃ msg, QueryOrders.main (p :: t :: s :: d :: rest) db fmtTs =
        .error (.valueError msg)) := by
  have hlen : ¬ (p :: t :: s :: d :: rest).length < 4 := by
    simp [List.length_cons]
  cases htz : (if 4 < (p :: t :: s :: d :: rest).length
      then pyInt ((p :: t :: s :: d :: rest).getD 4 "") else .ok 8) with
  | error e =>
    have hm : ∀ (dbx : List OrderRow) (fx : ℤ → String),
        QueryOrders.main (p :: t :: s :: d :: rest) dbx fx = .error e :=
      fun _ _ => main_tz_err hlen htz
    have heV : ∃ msg, e = .valueError msg := by
      by_cases h45 : 4 < (p :: t :: s :: d :: rest).length
      · rw [if_pos h45] at htz
        exact pyInt_error_class htz
      · rw [if_neg h45] at htz
        exact absurd htz (by simp)
    obtain ⟨msg, hmsg⟩ := heV
    exact ⟨⟨e, hm db fmtTs⟩, (hm db fmtTs).trans (hm db' fmtTs').symm,
      fun _ => ⟨msg, by rw [hm db fmtTs, hmsg]⟩⟩
  | ok tzv =>
    cases hp : parseDate d with
    | error e =>
      have hdr : day_range_ms d tzv = .error e := day_range_ms_parse_err hp
      have hm : ∀ (dbx : List OrderRow) (fx : ℤ → String),
          QueryOrders.main (p :: t :: s :: d :: rest) dbx fx = .error e :=
        fun _ _ => main_dr_err hlen htz hdr
      obtain ⟨msg, hmsg⟩ := parseDate_error_class hp
      exact ⟨⟨e, hm db fmtTs⟩, (hm db fmtTs).trans (hm db' fmtTs').symm,
        fun _ => ⟨msg, by rw [hm db fmtTs, hmsg]⟩⟩
    | ok ymd =>
      obtain ⟨y, m, dd⟩ := ymd
      have hcd : ∃ ce, checkDate y m dd = .error ce := by
        unfold dateValid at hmal
        rw [hp] at hmal
        dsimp only at hmal
        cases hcc : checkDate y m dd with
        | error ce => exact ⟨ce, rfl⟩
        | ok u =>
          rw [hcc] at hmal
          exact absurd hmal (by simp)
      obtain ⟨ce, hce⟩ := hcd
      cases htzc : pyTimezoneCheck tzv with
      | error te =>
        have hdr : day_range_ms d tzv = .error te := day_range_ms_tz_err hp htzc
        have hm : ∀ (dbx : List OrderRow) (fx : ℤ → String),
            QueryOrders.main (p :: t :: s :: d :: rest) dbx fx = .error te :=
          fun _ _ => main_dr_err hlen htz hdr
        refine ⟨⟨te, hm db fmtTs⟩, (hm db fmtTs).trans (hm db' fmtTs').symm,
          fun hsafe => ?_⟩
        obtain ⟨hr1, hr2⟩ := hsafe y m dd rfl tzv rfl
        have hno : ¬(Int.fdiv tzv 24 < -999999999 ∨
            999999999 < Int.fdiv tzv 24) := by omega
        unfold pyTimezoneCheck at htzc
        rw [if_neg hno] at htzc
        split_ifs at htzc
        · exact ⟨_, by rw [hm db fmtTs, ← Except.error.inj htzc]⟩
      | ok u =>
        cases u
        have hdr : day_range_ms d tzv = .error ce :=
          day_range_ms_date_err hp htzc hce
        have hm : ∀ (dbx : List OrderRow) (fx : ℤ → String),
            QueryOrders.main (p :: t :: s :: d :: rest) dbx fx = .error ce :=
          fun _ _ => main_dr_err hlen htz hdr
        obtain ⟨msg, hmsg⟩ := checkDate_error_class hce
        exact ⟨⟨ce, hm db fmtTs⟩, (hm db fmtTs).trans (hm db' fmtTs').symm,
          fun _ => ⟨msg, by rw [hm db fmtTs, hmsg]⟩⟩

/-- Witness for `c5_malformed_date_uncaught` at the invalid calendar date
`2025-02-30` with no tz argument. -/
theorem c5_malformed_date_uncaught_witness :
    (∃ e, QueryOrders.main
        ["query_orders.py", "trader1", "BTCUSDT", "2025-02-30"]
        [] (fun _ => "") = .error e) ∧
    QueryOrders.main ["query_orders.py", "trader1", "BTCUSDT", "2025-02-30"]
        [] (fun _ => "") =
      QueryOrders.main ["query_orders.py", "trader1", "BTCUSDT", "2025-02-30"]
        [sampleRow] (fun t => toString t) ∧
    ((∀ y m dd : ℤ, parseDate "2025-02-30" = .ok (y, m, dd) →
        ∀ tzv : ℤ,
          (if 4 < (["query_orders.py", "trader1", "BTCUSDT", "2025-02-30"] :
              List String).length
           then pyInt ((["query_orders.py", "trader1", "BTCUSDT", "2025-02-30"] :
              List String).getD 4 "")
           else .ok 8) = .ok tzv →
          -999999999 ≤ Int.fdiv tzv 24 ∧ Int.fdiv tzv 24 ≤ 999999999) →
      ∃ msg, QueryOrders.main
        ["query_orders.py", "trader1", "BTCUSDT", "2025-02-30"]
        [] (fun _ => "") = .error (.valueError msg)) :=
  c5_malformed_date_uncaught "query_orders.py" "trader1" "BTCUSDT" "2025-02-30"
    [] [] [sampleRow] (fun _ => "") (fun t => toString t) (by decide)
